import Mathlib

/-!
Verification of the `arcade` backend (`apps/backend/src/index.ts`).

The backend is an Express application over a Prisma store.  We embed the
request handlers as pure Lean functions over an explicit store state:

* `User` / `Demo` mirror the rows of the two Prisma tables that the
  handlers read and write.
* `DB` is the store state: a list of users and a list of demos.
* Request bodies are structures of `Option` fields: `none` models a JSON
  field that is absent (`undefined` in JavaScript).
* Responses are a status code plus a JSON value (`JVal`).
* `jwt.sign` is modelled by the injective constructor `jwtSign`;
  `jwt.verify` is a parameter `verify : String → Option String` returning
  the decoded `userId` on success.
* zod's `.email()` format test is a parameter `emailOk : String → Bool`;
  every claim only conditions on its outcome, never on its definition.
* Prisma semantics used by the embedding: a data field whose value is
  `undefined` is treated as "not provided" (the column keeps its value on
  `update` and is left to the store on `create`); `findFirst` returns the
  first matching row; `findUnique` on a unique column returns the matching
  row; `update`/`delete` by primary key touch exactly the rows with that id.
-/

/-- JSON values, as produced by the handlers' `res.json(...)` calls. -/
inductive JVal where
  | s : String → JVal
  | b : Bool → JVal
  | n : Nat → JVal
  | null : JVal
  | o : List (String × JVal) → JVal

/-- The field names of a JSON object (empty for non-objects). -/
def JVal.keys : JVal → List String
  | .o fields => fields.map Prod.fst
  | _ => []

/-- Whether a JSON value is an object with a `message` field. -/
def JVal.hasMessageField (j : JVal) : Bool :=
  j.keys.contains "message"

/-- An HTTP response: status code and JSON body. -/
structure HttpResponse where
  status : Nat
  body : JVal

/-- A row of the `User` table (the fields the backend reads and writes). -/
structure User where
  id : String
  email : String
  password : String
  name : String
deriving DecidableEq

/-- A row of the `Demo` table.  `thumbnail`, `url` and `isPublic` are the
fields the create handler may pass as `undefined`; `none` records that the
handler did not set them. -/
structure Demo where
  id : String
  title : String
  description : String
  type : String
  content : String
  thumbnail : Option String
  url : Option String
  isPublic : Option Bool
  views : Nat
  userId : String
deriving DecidableEq

/-- The store state. -/
structure DB where
  users : List User
  demos : List Demo
deriving DecidableEq

/-- Model of `jwt.sign({ userId }, JWT_SECRET)`: an injective token
constructor. -/
def jwtSign (userId : String) : String :=
  "signed." ++ userId

/-- JSON serialisation of an optional string column. -/
def jOptStr : Option String → JVal
  | some v => .s v
  | none => .null

/-- JSON serialisation of an optional boolean column. -/
def jOptBool : Option Bool → JVal
  | some v => .b v
  | none => .null

/-- JSON serialisation of a `Demo` row, as returned by the demo handlers. -/
def demoJson (d : Demo) : JVal :=
  .o [("id", .s d.id), ("title", .s d.title),
      ("description", .s d.description), ("type", .s d.type),
      ("content", .s d.content), ("thumbnail", jOptStr d.thumbnail),
      ("url", jOptStr d.url), ("isPublic", jOptBool d.isPublic),
      ("views", .n d.views), ("userId", .s d.userId)]

/-! ## Auth middleware (`authenticateToken`, index.ts lines 66–90) -/

/-- JavaScript `s.startsWith(p)`, computed on the character list (so that
concrete instances evaluate inside the kernel). -/
def jsStartsWith (s p : String) : Bool :=
  p.data.isPrefixOf s.data

/-- The worker of `jsSplitSpace`: accumulate the current piece (reversed)
and cut at every space. -/
def jsSplitSpaceGo : List Char → List Char → List String
  | [], acc => [String.mk acc.reverse]
  | c :: cs, acc =>
    if c = ' ' then String.mk acc.reverse :: jsSplitSpaceGo cs []
    else jsSplitSpaceGo cs (c :: acc)

/-- JavaScript `s.split(' ')`: split at every single space, keeping empty
pieces (so `"a  b"` gives `["a", "", "b"]` and `""` gives `[""]`). -/
def jsSplitSpace (s : String) : List String :=
  jsSplitSpaceGo s.data []

/-- Outcome of the middleware: an error response sent immediately, or the
`userId` attached to the request for the downstream handler.  The function
takes no store argument: the middleware never touches the store.  The
`token` of the source, `authHeader.split(' ')[1]`, is
`(jsSplitSpace h).getD 1 ""`: JavaScript `!token` is true exactly for the
out-of-range (`undefined`) and empty-string cases. -/
def authenticateToken (verify : String → Option String)
    (authHeader : Option String) : Except HttpResponse String :=
  match authHeader with
  | none => .error ⟨401, .o [("message", .s "Authentication required")]⟩
  | some h =>
    if jsStartsWith h "Bearer " then
      if (jsSplitSpace h).getD 1 "" = "" then
        .error ⟨401, .o [("message", .s "Authentication required")]⟩
      else
        match verify ((jsSplitSpace h).getD 1 "") with
        | none => .error ⟨403, .o [("message", .s "Invalid or expired token")]⟩
        | some userId => .ok userId
    else
      .error ⟨401, .o [("message", .s "Authentication required")]⟩

/-! ## Validation schemas (index.ts lines 93–112) -/

/-- Body of a signup request; `none` = field absent. -/
structure SignupBody where
  name : Option String
  email : Option String
  password : Option String
  confirmPassword : Option String
deriving DecidableEq

/-- The check `signupSchema.safeParse(req.body).success`:
name at least 3 characters, email in email format, password a string. -/
def signupSchemaCheck (emailOk : String → Bool) (b : SignupBody) : Bool :=
  (match b.name with | some n => decide (3 ≤ n.length) | none => false) &&
  (match b.email with | some e => emailOk e | none => false) &&
  b.password.isSome

/-- Body of a login request; `none` = field absent. -/
structure SigninBody where
  email : Option String
  password : Option String
deriving DecidableEq

/-- The check `signinSchema.safeParse(req.body).success`. -/
def signinSchemaCheck (emailOk : String → Bool) (b : SigninBody) : Bool :=
  (match b.email with | some e => emailOk e | none => false) &&
  b.password.isSome

/-- Body of a create/update demo request; `none` = field absent. -/
structure DemoBody where
  title : Option String
  description : Option String
  type : Option String
  content : Option String
  thumbnail : Option String
  url : Option String
  isPublic : Option Bool
deriving DecidableEq

/-- The check `demoSchema.safeParse(req.body).success`: title a non-empty string,
description/type/content strings, the rest optional. -/
def demoSchemaCheck (b : DemoBody) : Bool :=
  (match b.title with | some t => decide (1 ≤ t.length) | none => false) &&
  b.description.isSome && b.type.isSome && b.content.isSome

/-- The output type of `demoSchema.parse` (zod applies the declared
`.default(false)` to `isPublic`). -/
structure ParsedDemo where
  title : String
  description : String
  type : String
  content : String
  thumbnail : Option String
  url : Option String
  isPublic : Bool
deriving DecidableEq

/-- The value `demoSchema.safeParse(req.body).data`: the parsed payload, with the
schema default applied to `isPublic`.  (The handlers never use this value;
they destructure the raw body.  It is defined to state that fact.) -/
def demoSchemaParse (b : DemoBody) : Option ParsedDemo :=
  if demoSchemaCheck b then
    some { title := b.title.getD "", description := b.description.getD "",
           type := b.type.getD "", content := b.content.getD "",
           thumbnail := b.thumbnail, url := b.url,
           isPublic := b.isPublic.getD false }
  else
    none

/-! ## Signup handler (`POST /api/auth/signup`, index.ts lines 115–161) -/

/-- The signup handler.  `newId` is the row id the store generates for a
created user.  The raw-body field reads `b.password.getD ""` etc. are only
reached after the schema check guarantees the field is present. -/
def signupHandler (emailOk : String → Bool) (db : DB) (newId : String)
    (b : SignupBody) : HttpResponse × DB :=
  if signupSchemaCheck emailOk b = false then
    (⟨411, .o [("message", .s "Invalid input data")]⟩, db)
  else if b.password ≠ b.confirmPassword then
    (⟨411, .o [("message", .s "Passwords do not match")]⟩, db)
  else
    match db.users.find? (fun u => u.email == b.email.getD "") with
    | some _ => (⟨411, .o [("message", .s "Email already taken")]⟩, db)
    | none =>
      let user : User := { id := newId, email := b.email.getD "",
                           password := b.password.getD "", name := b.name.getD "" }
      (⟨200, .o [("message", .s "User created successfully"),
                 ("token", .s (jwtSign newId))]⟩,
       { db with users := db.users ++ [user] })

/-! ## Login handler (`POST /api/auth/login`, index.ts lines 163–221) -/

/-- The login handler.  `dbError : Option String` models the
`prisma.user.findUnique` call raising: `some e` is an exception whose
`message` is `e`; the inner `catch` rethrows it and the outer `catch`
answers 500 with a `message` and a `details` field. -/
def loginHandler (emailOk : String → Bool) (db : DB) (dbError : Option String)
    (b : SigninBody) : HttpResponse :=
  if signinSchemaCheck emailOk b = false then
    ⟨400, .o [("message", .s "Invalid email or password format")]⟩
  else
    match dbError with
    | some e => ⟨500, .o [("message", .s "Internal server error"),
                          ("details", .s e)]⟩
    | none =>
      match db.users.find? (fun u => u.email == b.email.getD "") with
      | none => ⟨401, .o [("message", .s "Invalid email or password")]⟩
      | some user =>
        if user.password ≠ b.password.getD "" then
          ⟨401, .o [("message", .s "Invalid email or password")]⟩
        else
          ⟨200, .o [("token", .s (jwtSign user.id))]⟩

/-! ## Demo handlers (index.ts lines 254–423)

Each runs behind `authenticateToken`; `uid` is the `userId` the middleware
attached to the request. -/

/-- The row `prisma.demo.create` inserts for `POST /api/demos`: fields are
destructured from the RAW request body (not from the zod parse result), so
an absent optional field is passed as `undefined` (`none`); `views` is 0
and the owner is the authenticated user.  `newId` is the generated row id. -/
def createdDemo (newId uid : String) (b : DemoBody) : Demo :=
  { id := newId, title := b.title.getD "", description := b.description.getD "",
    type := b.type.getD "", content := b.content.getD "",
    thumbnail := b.thumbnail, url := b.url, isPublic := b.isPublic,
    views := 0, userId := uid }

/-- Handler of `POST /api/demos`. -/
def createDemoHandler (db : DB) (uid newId : String) (b : DemoBody) :
    HttpResponse × DB :=
  if demoSchemaCheck b = false then
    (⟨400, .o [("message", .s "Invalid demo data")]⟩, db)
  else
    let d := createdDemo newId uid b
    (⟨201, demoJson d⟩, { db with demos := db.demos ++ [d] })

/-- Handler of `GET /api/demos/:id`: ownership-scoped `findFirst`; on a hit, a
`views: { increment: 1 }` update keyed on the id alone, and the
PRE-increment row is returned. -/
def getDemoByIdHandler (db : DB) (uid id : String) : HttpResponse × DB :=
  match db.demos.find? (fun d => d.id == id && d.userId == uid) with
  | none => (⟨404, .o [("message", .s "Demo not found")]⟩, db)
  | some demo =>
    (⟨200, demoJson demo⟩,
     { db with demos := db.demos.map (fun d =>
         if d.id == id then { d with views := d.views + 1 } else d) })

/-- The row produced by the `prisma.demo.update` of `PUT /api/demos/:id`:
fields destructured from the raw body; a field that is `undefined` is not
provided to Prisma, so the column keeps its stored value. -/
def applyDemoUpdate (b : DemoBody) (d : Demo) : Demo :=
  { d with
    title := b.title.getD d.title,
    description := b.description.getD d.description,
    type := b.type.getD d.type,
    content := b.content.getD d.content,
    thumbnail := match b.thumbnail with | some t => some t | none => d.thumbnail,
    url := match b.url with | some u => some u | none => d.url,
    isPublic := match b.isPublic with | some p => some p | none => d.isPublic }

/-- Handler of `PUT /api/demos/:id`: schema check, then ownership-scoped `findFirst`,
then an update keyed on the id alone; the updated row is returned. -/
def updateDemoHandler (db : DB) (uid id : String) (b : DemoBody) :
    HttpResponse × DB :=
  if demoSchemaCheck b = false then
    (⟨400, .o [("message", .s "Invalid demo data")]⟩, db)
  else
    match db.demos.find? (fun d => d.id == id && d.userId == uid) with
    | none => (⟨404, .o [("message", .s "Demo not found")]⟩, db)
    | some demo =>
      (⟨200, demoJson (applyDemoUpdate b demo)⟩,
       { db with demos := db.demos.map (fun d =>
           if d.id == id then applyDemoUpdate b d else d) })

/-- Handler of `DELETE /api/demos/:id`: ownership-scoped `findFirst`, then a delete
keyed on the id alone. -/
def deleteDemoHandler (db : DB) (uid id : String) : HttpResponse × DB :=
  match db.demos.find? (fun d => d.id == id && d.userId == uid) with
  | none => (⟨404, .o [("message", .s "Demo not found")]⟩, db)
  | some _ =>
    (⟨200, .o [("message", .s "Demo deleted successfully")]⟩,
     { db with demos := db.demos.filter (fun d => !(d.id == id)) })

/-! ## Image upload handler (`POST /api/upload-image`, index.ts lines 426–485) -/

/-- A multer in-memory file. -/
structure UploadedFile where
  originalname : String
  mimetype : String
  buffer : List Nat
deriving DecidableEq

/-- The argument record of `PutObjectCommand`. -/
structure PutParams where
  bucket : String
  key : String
  body : List Nat
  contentType : String
deriving DecidableEq

/-- The storage key: `uploads/${Date.now()}-${file.originalname}`. -/
def uploadKey (now : Nat) (f : UploadedFile) : String :=
  "uploads/" ++ toString now ++ "-" ++ f.originalname

/-- The upload handler.  `bucketName` is `R2_BUCKET_NAME` (`""` when the
environment variable is unset), `publicUrl` is `R2_PUBLIC_URL`, `endpoint`
the configured endpoint, `now` the `Date.now()` timestamp, and
`send : PutParams → Except String Unit` the `r2Client.send` call (`.error e`
is an exception whose `message` is `e`). -/
def uploadImageHandler (bucketName publicUrl endpoint : String) (now : Nat)
    (send : PutParams → Except String Unit) (file : Option UploadedFile) :
    HttpResponse :=
  match file with
  | none => ⟨400, .o [("message", .s "No image file provided")]⟩
  | some f =>
    if bucketName = "" then
      ⟨500, .o [("message", .s "R2 bucket name not configured")]⟩
    else
      let key := uploadKey now f
      match send { bucket := bucketName, key := key, body := f.buffer,
                   contentType := f.mimetype } with
      | .error e =>
        ⟨500, .o [("message", .s "Upload to R2 failed"), ("error", .s e),
                  ("details", .o [("bucket", .s bucketName),
                                  ("endpoint", .s endpoint)])]⟩
      | .ok _ => ⟨200, .o [("url", .s (publicUrl ++ "/" ++ key))]⟩

/-! ## Helper lemmas -/

/-- The function `List.find?` returns the unique element satisfying the predicate. -/
theorem find_of_mem_unique {α} (l : List α) (p : α → Bool) (a : α)
    (ha : a ∈ l) (hpa : p a = true) (huniq : ∀ b ∈ l, p b = true → b = a) :
    l.find? p = some a := by
  induction l with
  | nil => cases ha
  | cons x xs ih =>
    by_cases hx : p x = true
    · have hxa : x = a := huniq x (List.mem_cons_self x xs) hx
      subst hxa
      exact List.find?_cons_of_pos _ hx
    · have ha' : a ∈ xs := by
        rcases List.mem_cons.mp ha with h | h
        · exact absurd (h ▸ hpa) hx
        · exact h
      rw [List.find?_cons_of_neg _ hx]
      exact ih ha' (fun b hb hpb => huniq b (List.mem_cons_of_mem _ hb) hpb)

/-! ## Claims -/

/-- C9: for every authenticated create request whose payload passes the demo
schema, the handler inserts exactly one Demo row (appended to the table),
owned by the authenticated user and with view counter 0, and returns the
created Demo with status 201. -/
theorem C9_create_demo (db : DB) (uid newId : String) (b : DemoBody)
    (hb : demoSchemaCheck b = true) :
    createDemoHandler db uid newId b =
      (⟨201, demoJson (createdDemo newId uid b)⟩,
       { db with demos := db.demos ++ [createdDemo newId uid b] }) ∧
    (createdDemo newId uid b).userId = uid ∧
    (createdDemo newId uid b).views = 0 ∧
    (db.demos ++ [createdDemo newId uid b]).length = db.demos.length + 1 := by
  refine ⟨?_, rfl, rfl, by simp⟩
  simp only [createDemoHandler, hb]
  simp

/-- Concrete store and payloads used by the witnesses. -/
def user1 : User := { id := "u1", email := "ann@x.com", password := "pw1", name := "Ann" }

def user2 : User := { id := "u2", email := "bob@x.com", password := "pw2", name := "Bob" }

def demo1 : Demo :=
  { id := "d1", title := "T1", description := "first", type := "code",
    content := "c1", thumbnail := some "old.png", url := some "old-url",
    isPublic := some true, views := 3, userId := "u1" }

def demo2 : Demo :=
  { id := "d2", title := "T2", description := "second", type := "video",
    content := "c2", thumbnail := none, url := none,
    isPublic := none, views := 0, userId := "u2" }

def db0 : DB := { users := [user1, user2], demos := [demo1, demo2] }

/-- A demo payload that passes the schema and sets every optional field. -/
def bodyFull : DemoBody :=
  { title := some "New", description := some "nd", type := some "art",
    content := some "nc", thumbnail := some "t.png", url := some "u2",
    isPublic := some false }

/-- A demo payload that passes the schema but omits every optional field. -/
def bodyOmit : DemoBody :=
  { title := some "New", description := some "nd", type := some "art",
    content := some "nc", thumbnail := none, url := none, isPublic := none }

/-- Witness for C9 at a concrete store and payload. -/
theorem C9_create_demo_witness :
    demoSchemaCheck bodyFull = true ∧
    createDemoHandler db0 "u1" "d9" bodyFull =
      (⟨201, demoJson (createdDemo "d9" "u1" bodyFull)⟩,
       { db0 with demos := db0.demos ++ [createdDemo "d9" "u1" bodyFull] }) ∧
    (createdDemo "d9" "u1" bodyFull).views = 0 :=
  ⟨by decide, (C9_create_demo db0 "u1" "d9" bodyFull (by decide)).1,
   (C9_create_demo db0 "u1" "d9" bodyFull (by decide)).2.2.1⟩

/-- C10: a create whose payload passes the schema but omits `isPublic`
inserts a row whose `isPublic` is the raw body's absent (`undefined`) value,
not the schema default `false` that `demoSchema.parse` would have produced:
the handler destructures the raw request body, not the parse result. -/
theorem C10_create_isPublic_raw (db : DB) (uid newId : String) (b : DemoBody)
    (hb : demoSchemaCheck b = true) (hip : b.isPublic = none) :
    (createDemoHandler db uid newId b).2.demos = db.demos ++ [createdDemo newId uid b] ∧
    (createdDemo newId uid b).isPublic = b.isPublic ∧
    (createdDemo newId uid b).isPublic = none ∧
    (demoSchemaParse b).map ParsedDemo.isPublic = some false := by
  refine ⟨?_, rfl, hip, ?_⟩
  · simp only [createDemoHandler, hb]
    simp
  · simp only [demoSchemaParse, hb, if_true]
    simp [hip]

/-- Witness for C10 at a concrete payload omitting `isPublic`. -/
theorem C10_create_isPublic_raw_witness :
    demoSchemaCheck bodyOmit = true ∧ bodyOmit.isPublic = none ∧
    (createdDemo "d9" "u1" bodyOmit).isPublic = none ∧
    (demoSchemaParse bodyOmit).map ParsedDemo.isPublic = some false :=
  ⟨by decide, by decide,
   (C10_create_isPublic_raw db0 "u1" "d9" bodyOmit (by decide) (by decide)).2.2.1,
   (C10_create_isPublic_raw db0 "u1" "d9" bodyOmit (by decide) (by decide)).2.2.2⟩

/-- C2: get-by-id on a Demo owned by the caller returns the record with the
PRE-increment view counter and increments exactly that Demo's counter by 1
(all other rows unchanged, no row added or removed); when no Demo with that
id owned by the caller exists it returns NotFound and changes nothing. -/
theorem C2_get_by_id (db : DB) (uid i : String) (d : Demo)
    (hmem : d ∈ db.demos) (hid : d.id = i) (howner : d.userId = uid)
    (huniq : ∀ e ∈ db.demos, e.id = i → e = d) :
    (getDemoByIdHandler db uid i).1 = ⟨200, demoJson d⟩ ∧
    (getDemoByIdHandler db uid i).2.demos =
      db.demos.map (fun e => if e.id == i then { e with views := e.views + 1 } else e) ∧
    { d with views := d.views + 1 } ∈ (getDemoByIdHandler db uid i).2.demos ∧
    (∀ e ∈ db.demos, e.id ≠ i → e ∈ (getDemoByIdHandler db uid i).2.demos) ∧
    (getDemoByIdHandler db uid i).2.demos.length = db.demos.length ∧
    (∀ db2 : DB, ∀ uid2 i2 : String,
      (∀ e ∈ db2.demos, ¬(e.id = i2 ∧ e.userId = uid2)) →
      getDemoByIdHandler db2 uid2 i2 =
        (⟨404, .o [("message", .s "Demo not found")]⟩, db2)) := by
  have hfind : db.demos.find? (fun e => e.id == i && e.userId == uid) = some d := by
    apply find_of_mem_unique _ _ _ hmem
    · simp [hid, howner]
    · intro e he hpe
      simp only [Bool.and_eq_true, beq_iff_eq] at hpe
      exact huniq e he hpe.1
  refine ⟨?_, ?_, ?_, ?_, ?_, ?_⟩
  · simp only [getDemoByIdHandler, hfind]
  · simp only [getDemoByIdHandler, hfind]
  · simp only [getDemoByIdHandler, hfind]
    exact List.mem_map.mpr ⟨d, hmem, by simp [hid]⟩
  · intro e he hne
    simp only [getDemoByIdHandler, hfind]
    exact List.mem_map.mpr ⟨e, he, by simp [hne]⟩
  · simp only [getDemoByIdHandler, hfind]
    simp
  · intro db2 uid2 i2 hno
    have hfind2 : db2.demos.find? (fun e => e.id == i2 && e.userId == uid2) = none := by
      apply List.find?_eq_none.mpr
      intro x hx
      simp only [Bool.and_eq_true, beq_iff_eq]
      exact fun hcon => hno x hx ⟨hcon.1, hcon.2⟩
    simp only [getDemoByIdHandler, hfind2]

/-- Witness for C2: the owner of `demo1` reads it in the concrete store. -/
theorem C2_get_by_id_witness :
    (getDemoByIdHandler db0 "u1" "d1").1 = ⟨200, demoJson demo1⟩ ∧
    { demo1 with views := demo1.views + 1 } ∈ (getDemoByIdHandler db0 "u1" "d1").2.demos ∧
    (getDemoByIdHandler db0 "u1" "d1").2.demos.length = db0.demos.length :=
  ⟨(C2_get_by_id db0 "u1" "d1" demo1 (by decide) rfl rfl (by decide)).1,
   (C2_get_by_id db0 "u1" "d1" demo1 (by decide) rfl rfl (by decide)).2.2.1,
   (C2_get_by_id db0 "u1" "d1" demo1 (by decide) rfl rfl (by decide)).2.2.2.2.1⟩

/-- A demo payload rejected by the schema (empty title). -/
def bodyBad : DemoBody :=
  { title := some "", description := some "nd", type := some "art",
    content := some "nc", thumbnail := none, url := none, isPublic := none }

/-- C1 counterexample: `demo1` is owned by `u1` and `u1 ≠ u2`, yet the
update request from `u2` with a schema-invalid payload answers 400, not the
NotFound (404) the claim asserts for every request from the non-owner
(the stored row is still unchanged). -/
theorem C1_counterexample :
    "u1" ≠ "u2" ∧ demo1 ∈ db0.demos ∧ demo1.id = "d1" ∧ demo1.userId = "u1" ∧
    demoSchemaCheck bodyBad = false ∧
    (updateDemoHandler db0 "u2" "d1" bodyBad).1.status = 400 ∧
    ¬ (updateDemoHandler db0 "u2" "d1" bodyBad).1.status = 404 ∧
    (updateDemoHandler db0 "u2" "d1" bodyBad).2 = db0 := by
  decide

/-- C1 (amended): for distinct users, a get-by-id or delete of another
user's Demo answers NotFound, an update answers NotFound when the payload
passes the demo schema and 400 otherwise, and in every case the store —
including the Demo's view counter — is unchanged. -/
theorem C1_ownership (db : DB) (u1 u2 i : String) (d : Demo) (b : DemoBody)
    (hne : u1 ≠ u2) (hmem : d ∈ db.demos) (hid : d.id = i) (howner : d.userId = u1)
    (hall : ∀ e ∈ db.demos, e.id = i → e.userId = u1) :
    getDemoByIdHandler db u2 i = (⟨404, .o [("message", .s "Demo not found")]⟩, db) ∧
    deleteDemoHandler db u2 i = (⟨404, .o [("message", .s "Demo not found")]⟩, db) ∧
    (demoSchemaCheck b = true →
      updateDemoHandler db u2 i b = (⟨404, .o [("message", .s "Demo not found")]⟩, db)) ∧
    (demoSchemaCheck b = false →
      updateDemoHandler db u2 i b = (⟨400, .o [("message", .s "Invalid demo data")]⟩, db)) ∧
    (updateDemoHandler db u2 i b).2 = db := by
  have hfind : db.demos.find? (fun e => e.id == i && e.userId == u2) = none := by
    apply List.find?_eq_none.mpr
    intro x hx
    simp only [Bool.and_eq_true, beq_iff_eq]
    rintro ⟨h1, h2⟩
    exact hne ((hall x hx h1).symm.trans h2)
  refine ⟨?_, ?_, ?_, ?_, ?_⟩
  · simp only [getDemoByIdHandler, hfind]
  · simp only [deleteDemoHandler, hfind]
  · intro hb
    simp only [updateDemoHandler, hb, hfind]
    simp
  · intro hb
    simp only [updateDemoHandler, hb]
    simp
  · by_cases hb : demoSchemaCheck b = true
    · simp only [updateDemoHandler, hb, hfind]
      simp
    · simp only [updateDemoHandler, eq_false_of_ne_true hb]
      simp

/-- Witness for the amended C1: `u2` attacks `demo1` (owned by `u1`) in the
concrete store with a schema-valid payload. -/
theorem C1_ownership_witness :
    getDemoByIdHandler db0 "u2" "d1" =
      (⟨404, .o [("message", .s "Demo not found")]⟩, db0) ∧
    deleteDemoHandler db0 "u2" "d1" =
      (⟨404, .o [("message", .s "Demo not found")]⟩, db0) ∧
    updateDemoHandler db0 "u2" "d1" bodyFull =
      (⟨404, .o [("message", .s "Demo not found")]⟩, db0) :=
  ⟨(C1_ownership db0 "u1" "u2" "d1" demo1 bodyFull (by decide) (by decide) rfl rfl
      (by decide)).1,
   (C1_ownership db0 "u1" "u2" "d1" demo1 bodyFull (by decide) (by decide) rfl rfl
      (by decide)).2.1,
   (C1_ownership db0 "u1" "u2" "d1" demo1 bodyFull (by decide) (by decide) rfl rfl
      (by decide)).2.2.1 (by decide)⟩

/-- C4 counterexample: the owner updates `demo1` with a schema-valid payload
omitting `thumbnail`, `url` and `isPublic`; the claim says these fields are
overwritten with the payload's (absent) values, but the stored row keeps
its old `thumbnail`/`url`/`isPublic`: Prisma ignores `undefined` fields. -/
theorem C4_counterexample :
    demoSchemaCheck bodyOmit = true ∧
    bodyOmit.thumbnail = none ∧ bodyOmit.url = none ∧ bodyOmit.isPublic = none ∧
    demo1.thumbnail = some "old.png" ∧
    (updateDemoHandler db0 "u1" "d1" bodyOmit).2.demos.map Demo.thumbnail =
      [some "old.png", none] ∧
    (updateDemoHandler db0 "u1" "d1" bodyOmit).2.demos.map Demo.url =
      [some "old-url", none] ∧
    (updateDemoHandler db0 "u1" "d1" bodyOmit).2.demos.map Demo.isPublic =
      [some true, none] ∧
    ¬ some "old.png" = bodyOmit.thumbnail := by
  decide

/-- C4 (amended): for a schema-valid payload and a Demo owned by the caller,
the update overwrites exactly the fields present in the payload with the
payload's values; optional fields absent from the payload keep their stored
values (Prisma drops `undefined` data fields); the updated row is returned
with status 200. -/
theorem C4_update_fields (db : DB) (uid i : String) (d : Demo) (b : DemoBody)
    (hb : demoSchemaCheck b = true) (hmem : d ∈ db.demos) (hid : d.id = i)
    (howner : d.userId = uid) (huniq : ∀ e ∈ db.demos, e.id = i → e = d) :
    updateDemoHandler db uid i b =
      (⟨200, demoJson (applyDemoUpdate b d)⟩,
       { db with demos := db.demos.map (fun e =>
           if e.id == i then applyDemoUpdate b e else e) }) ∧
    (∀ v, b.title = some v → (applyDemoUpdate b d).title = v) ∧
    (∀ v, b.description = some v → (applyDemoUpdate b d).description = v) ∧
    (∀ v, b.type = some v → (applyDemoUpdate b d).type = v) ∧
    (∀ v, b.content = some v → (applyDemoUpdate b d).content = v) ∧
    (∀ v, b.thumbnail = some v → (applyDemoUpdate b d).thumbnail = some v) ∧
    (b.thumbnail = none → (applyDemoUpdate b d).thumbnail = d.thumbnail) ∧
    (∀ v, b.url = some v → (applyDemoUpdate b d).url = some v) ∧
    (b.url = none → (applyDemoUpdate b d).url = d.url) ∧
    (∀ v, b.isPublic = some v → (applyDemoUpdate b d).isPublic = some v) ∧
    (b.isPublic = none → (applyDemoUpdate b d).isPublic = d.isPublic) := by
  have hfind : db.demos.find? (fun e => e.id == i && e.userId == uid) = some d := by
    apply find_of_mem_unique _ _ _ hmem
    · simp [hid, howner]
    · intro e he hpe
      simp only [Bool.and_eq_true, beq_iff_eq] at hpe
      exact huniq e he hpe.1
  refine ⟨?_, ?_, ?_, ?_, ?_, ?_, ?_, ?_, ?_, ?_, ?_⟩
  · simp only [updateDemoHandler, hb, hfind]
    simp
  all_goals
    first
    | (intro v hv; simp [applyDemoUpdate, hv])
    | (intro hv; simp [applyDemoUpdate, hv])

/-- Witness for the amended C4: owner update of `demo1` with a payload that
omits all optional fields. -/
theorem C4_update_fields_witness :
    updateDemoHandler db0 "u1" "d1" bodyOmit =
      (⟨200, demoJson (applyDemoUpdate bodyOmit demo1)⟩,
       { db0 with demos := db0.demos.map (fun e =>
           if e.id == "d1" then applyDemoUpdate bodyOmit e else e) }) ∧
    (applyDemoUpdate bodyOmit demo1).thumbnail = demo1.thumbnail :=
  ⟨(C4_update_fields db0 "u1" "d1" demo1 bodyOmit (by decide) (by decide) rfl rfl
      (by decide)).1,
   (C4_update_fields db0 "u1" "d1" demo1 bodyOmit (by decide) (by decide) rfl rfl
      (by decide)).2.2.2.2.2.2.1 (by decide)⟩

/-- C3: for a login body that passes schema validation (with the store
healthy): a matching email whose stored password equals the submitted one
yields a token; a nonexistent email and a wrong password both yield the
SAME 401 response literal "Invalid email or password", so the two rejection
runs are indistinguishable. -/
theorem C3_login (emailOk : String → Bool) (db : DB) (b : SigninBody)
    (e p : String) (hemail : b.email = some e) (hok : emailOk e = true)
    (hpass : b.password = some p) :
    (∀ u ∈ db.users, u.email = e → (∀ v ∈ db.users, v.email = e → v = u) →
      u.password = p →
      loginHandler emailOk db none b = ⟨200, .o [("token", .s (jwtSign u.id))]⟩) ∧
    ((∀ u ∈ db.users, u.email ≠ e) →
      loginHandler emailOk db none b =
        ⟨401, .o [("message", .s "Invalid email or password")]⟩) ∧
    (∀ u ∈ db.users, u.email = e → (∀ v ∈ db.users, v.email = e → v = u) →
      u.password ≠ p →
      loginHandler emailOk db none b =
        ⟨401, .o [("message", .s "Invalid email or password")]⟩) := by
  have hchk : signinSchemaCheck emailOk b = true := by
    simp only [signinSchemaCheck, hemail, hpass, hok]
    simp
  have hgd : b.email.getD "" = e := by rw [hemail]; rfl
  have hgp : b.password.getD "" = p := by rw [hpass]; rfl
  refine ⟨?_, ?_, ?_⟩
  · intro u hu hue huniq hupw
    have hfind : db.users.find? (fun v => v.email == e) = some u := by
      apply find_of_mem_unique _ _ _ hu
      · simp [hue]
      · intro v hv hpv
        simp only [beq_iff_eq] at hpv
        exact huniq v hv hpv
    simp only [loginHandler, hchk, hgd, hgp, hfind]
    simp [hupw]
  · intro hno
    have hfind : db.users.find? (fun v => v.email == e) = none := by
      apply List.find?_eq_none.mpr
      intro v hv
      simp only [beq_iff_eq]
      exact hno v hv
    simp only [loginHandler, hchk, hgd, hfind]
    simp
  · intro u hu hue huniq hupw
    have hfind : db.users.find? (fun v => v.email == e) = some u := by
      apply find_of_mem_unique _ _ _ hu
      · simp [hue]
      · intro v hv hpv
        simp only [beq_iff_eq] at hpv
        exact huniq v hv hpv
    simp only [loginHandler, hchk, hgd, hgp, hfind]
    simp [hupw]

/-- The email-format test used by the witnesses: the string contains "@"
(the claims only condition on the outcome of the zod format test). -/
def emailOkAt (s : String) : Bool :=
  s.data.contains '@'

/-- Login bodies for the witnesses: correct credentials for `user1`, a
wrong password for `user1`, and an unknown email. -/
def loginGood : SigninBody := { email := some "ann@x.com", password := some "pw1" }

def loginWrongPw : SigninBody := { email := some "ann@x.com", password := some "zzz" }

def loginNoUser : SigninBody := { email := some "ghost@x.com", password := some "pw1" }

/-- Witness for C3: in the concrete store, correct credentials yield the
token, and the wrong-password and unknown-email rejections are the same
response. -/
theorem C3_login_witness :
    loginHandler emailOkAt db0 none loginGood =
      ⟨200, .o [("token", .s (jwtSign "u1"))]⟩ ∧
    loginHandler emailOkAt db0 none loginNoUser =
      ⟨401, .o [("message", .s "Invalid email or password")]⟩ ∧
    loginHandler emailOkAt db0 none loginWrongPw =
      ⟨401, .o [("message", .s "Invalid email or password")]⟩ :=
  ⟨(C3_login emailOkAt db0 loginGood "ann@x.com" "pw1" rfl (by decide) rfl).1
      user1 (by decide) rfl (by decide) rfl,
   (C3_login emailOkAt db0 loginNoUser "ghost@x.com" "pw1" rfl (by decide) rfl).2.1
      (by decide),
   (C3_login emailOkAt db0 loginWrongPw "ann@x.com" "zzz" rfl (by decide) rfl).2.2
      user1 (by decide) rfl (by decide) (by decide)⟩

/-- A signup body reusing `user1`'s registered email but with
password ≠ confirmPassword. -/
def signupDupMismatch : SignupBody :=
  { name := some "Annabel", email := some "ann@x.com",
    password := some "p1", confirmPassword := some "p2" }

/-- C6 counterexample: the email is already registered, yet because the
password confirmation check runs before the duplicate-email lookup, the
handler answers the ValidationError "Passwords do not match" — not the
Conflict error "Email already taken" the claim asserts for all field
values. -/
theorem C6_counterexample :
    user1 ∈ db0.users ∧ user1.email = "ann@x.com" ∧
    signupDupMismatch.email = some "ann@x.com" ∧
    signupSchemaCheck emailOkAt signupDupMismatch = true ∧
    (signupHandler emailOkAt db0 "u9" signupDupMismatch).1 =
      ⟨411, .o [("message", .s "Passwords do not match")]⟩ ∧
    ¬ "Passwords do not match" = "Email already taken" := by
  refine ⟨by decide, rfl, rfl, by decide, rfl, by decide⟩

/-- C6 (amended): signup with an already-registered email always answers
status 411 and never creates a row, but the response is the Conflict error
"Email already taken" only when the schema check passes and the password
equals its confirmation; an earlier validation failure answers its own 411
message instead. -/
theorem C6_signup_duplicate (emailOk : String → Bool) (db : DB) (newId : String)
    (b : SignupBody) (e : String) (u : User)
    (hemail : b.email = some e) (hu : u ∈ db.users) (hue : u.email = e) :
    (signupHandler emailOk db newId b).1.status = 411 ∧
    (signupHandler emailOk db newId b).2 = db ∧
    (signupSchemaCheck emailOk b = true → b.password = b.confirmPassword →
      signupHandler emailOk db newId b =
        (⟨411, .o [("message", .s "Email already taken")]⟩, db)) := by
  have hgd : b.email.getD "" = e := by rw [hemail]; rfl
  have hfind : (db.users.find? (fun v => v.email == b.email.getD "")).isSome := by
    rw [List.find?_isSome]
    exact ⟨u, hu, by simp [hgd, hue]⟩
  obtain ⟨w, hw⟩ := Option.isSome_iff_exists.mp hfind
  by_cases hchk : signupSchemaCheck emailOk b = true
  · by_cases hpw : b.password = b.confirmPassword
    · have hval : signupHandler emailOk db newId b =
          (⟨411, .o [("message", .s "Email already taken")]⟩, db) := by
        simp only [signupHandler, hchk, hpw, hw]
        simp
      exact ⟨by rw [hval], by rw [hval], fun _ _ => hval⟩
    · have hval : signupHandler emailOk db newId b =
          (⟨411, .o [("message", .s "Passwords do not match")]⟩, db) := by
        simp only [signupHandler, hchk]
        simp [hpw]
      exact ⟨by rw [hval], by rw [hval], fun _ h => absurd h hpw⟩
  · have hval : signupHandler emailOk db newId b =
        (⟨411, .o [("message", .s "Invalid input data")]⟩, db) := by
      simp only [signupHandler, eq_false_of_ne_true hchk]
      simp
    exact ⟨by rw [hval], by rw [hval], fun h _ => absurd h hchk⟩

/-- A well-formed signup body reusing `user1`'s registered email. -/
def signupDupGood : SignupBody :=
  { name := some "Annabel", email := some "ann@x.com",
    password := some "p1", confirmPassword := some "p1" }

/-- Witness for the amended C6: a duplicate-email signup against the
concrete store. -/
theorem C6_signup_duplicate_witness :
    (signupHandler emailOkAt db0 "u9" signupDupGood).1.status = 411 ∧
    (signupHandler emailOkAt db0 "u9" signupDupGood).2 = db0 ∧
    signupHandler emailOkAt db0 "u9" signupDupGood =
      (⟨411, .o [("message", .s "Email already taken")]⟩, db0) :=
  ⟨(C6_signup_duplicate emailOkAt db0 "u9" signupDupGood "ann@x.com" user1
      rfl (by decide) rfl).1,
   (C6_signup_duplicate emailOkAt db0 "u9" signupDupGood "ann@x.com" user1
      rfl (by decide) rfl).2.1,
   (C6_signup_duplicate emailOkAt db0 "u9" signupDupGood "ann@x.com" user1
      rfl (by decide) rfl).2.2 (by decide) rfl⟩


/-- C7: the middleware answers 401 "Authentication required" when the
Authorization header is absent, does not start with "Bearer ", or carries an
empty token — the function takes no store argument, so these paths touch no
store; it answers 403 "Invalid or expired token" when signature verification
fails; on success its only outcome is `.ok` of exactly the userId decoded
from the token, which the caller attaches to the request. -/
theorem C7_middleware (verify : String → Option String) (h uid : String)
    (hs : jsStartsWith h "Bearer " = true) :
    (∀ v2 : String → Option String, authenticateToken v2 none =
      .error ⟨401, .o [("message", .s "Authentication required")]⟩) ∧
    (∀ v2 : String → Option String, ∀ h2 : String,
      jsStartsWith h2 "Bearer " = false →
      authenticateToken v2 (some h2) =
        .error ⟨401, .o [("message", .s "Authentication required")]⟩) ∧
    ((jsSplitSpace h).getD 1 "" = "" →
      authenticateToken verify (some h) =
        .error ⟨401, .o [("message", .s "Authentication required")]⟩) ∧
    ((jsSplitSpace h).getD 1 "" ≠ "" →
      verify ((jsSplitSpace h).getD 1 "") = none →
      authenticateToken verify (some h) =
        .error ⟨403, .o [("message", .s "Invalid or expired token")]⟩) ∧
    ((jsSplitSpace h).getD 1 "" ≠ "" →
      verify ((jsSplitSpace h).getD 1 "") = some uid →
      authenticateToken verify (some h) = .ok uid) := by
  refine ⟨fun _ => rfl, ?_, ?_, ?_, ?_⟩
  · intro v2 h2 h2s
    have hns : ¬ jsStartsWith h2 "Bearer " = true := by rw [h2s]; exact Bool.false_ne_true
    show (if jsStartsWith h2 "Bearer " = true then _ else _) = _
    rw [if_neg hns]
  · intro htok
    show (if jsStartsWith h "Bearer " = true then _ else _) = _
    rw [if_pos hs, if_pos htok]
  · intro htok hv
    show (if jsStartsWith h "Bearer " = true then _ else _) = _
    rw [if_pos hs, if_neg htok, hv]
  · intro htok hv
    show (if jsStartsWith h "Bearer " = true then _ else _) = _
    rw [if_pos hs, if_neg htok, hv]

/-- The token verifier used by the witness: accepts exactly the token
"tok1" as belonging to `u1`. -/
def verifyAt (t : String) : Option String :=
  if t = "tok1" then some "u1" else none

/-- Witness for C7: a missing header, a non-bearer header, a bad-signature
bearer header, and a valid bearer header, each at its concrete outcome. -/
theorem C7_middleware_witness :
    authenticateToken verifyAt none =
      .error ⟨401, .o [("message", .s "Authentication required")]⟩ ∧
    authenticateToken verifyAt (some "Token abc") =
      .error ⟨401, .o [("message", .s "Authentication required")]⟩ ∧
    authenticateToken verifyAt (some "Bearer forged") =
      .error ⟨403, .o [("message", .s "Invalid or expired token")]⟩ ∧
    authenticateToken verifyAt (some "Bearer tok1") = .ok "u1" :=
  ⟨(C7_middleware verifyAt "Bearer tok1" "u1" (by decide)).1 verifyAt,
   (C7_middleware verifyAt "Bearer tok1" "u1" (by decide)).2.1
      verifyAt "Token abc" (by decide),
   (C7_middleware verifyAt "Bearer forged" "u1" (by decide)).2.2.2.1
      (by decide) (by decide),
   (C7_middleware verifyAt "Bearer tok1" "u1" (by decide)).2.2.2.2
      (by decide) (by decide)⟩

/-- C8: for an authenticated upload — no file yields BadRequest (400); with
a file but an unset bucket name, ConfigError (500); otherwise the key is
built from the timestamp and the original filename, a success answers the
public URL derived from that key, and a raising storage call answers
UploadError (500). -/
theorem C8_upload (bn pu ep : String) (now : Nat)
    (send : PutParams → Except String Unit) (f : UploadedFile) (e : String)
    (hbn : bn ≠ "") :
    (∀ send2 : PutParams → Except String Unit,
      uploadImageHandler bn pu ep now send2 none =
        ⟨400, .o [("message", .s "No image file provided")]⟩) ∧
    (∀ send2 : PutParams → Except String Unit, ∀ f2 : UploadedFile,
      uploadImageHandler "" pu ep now send2 (some f2) =
        ⟨500, .o [("message", .s "R2 bucket name not configured")]⟩) ∧
    uploadKey now f = "uploads/" ++ toString now ++ "-" ++ f.originalname ∧
    (send ⟨bn, uploadKey now f, f.buffer, f.mimetype⟩ = .ok () →
      uploadImageHandler bn pu ep now send (some f) =
        ⟨200, .o [("url", .s (pu ++ "/" ++ uploadKey now f))]⟩) ∧
    (send ⟨bn, uploadKey now f, f.buffer, f.mimetype⟩ = .error e →
      uploadImageHandler bn pu ep now send (some f) =
        ⟨500, .o [("message", .s "Upload to R2 failed"), ("error", .s e),
                  ("details", .o [("bucket", .s bn), ("endpoint", .s ep)])]⟩) := by
  refine ⟨fun _ => rfl, fun _ _ => rfl, rfl, ?_, ?_⟩
  · intro hsend
    show (if bn = "" then _ else _) = _
    rw [if_neg hbn]
    show (match send ⟨bn, uploadKey now f, f.buffer, f.mimetype⟩ with
          | .error e =>
            HttpResponse.mk 500
              (.o [("message", .s "Upload to R2 failed"), ("error", .s e),
                   ("details", .o [("bucket", .s bn), ("endpoint", .s ep)])])
          | .ok _ => ⟨200, .o [("url", .s (pu ++ "/" ++ uploadKey now f))]⟩) = _
    rw [hsend]
  · intro hsend
    show (if bn = "" then _ else _) = _
    rw [if_neg hbn]
    show (match send ⟨bn, uploadKey now f, f.buffer, f.mimetype⟩ with
          | .error e =>
            HttpResponse.mk 500
              (.o [("message", .s "Upload to R2 failed"), ("error", .s e),
                   ("details", .o [("bucket", .s bn), ("endpoint", .s ep)])])
          | .ok _ => ⟨200, .o [("url", .s (pu ++ "/" ++ uploadKey now f))]⟩) = _
    rw [hsend]

/-- The file and storage stub used by the C8 witness. -/
def file0 : UploadedFile := { originalname := "a.png", mimetype := "image/png", buffer := [1, 2] }

def sendOk : PutParams → Except String Unit := fun _ => .ok ()

/-- Witness for C8: a concrete upload that succeeds, plus the no-file and
no-bucket failures. -/
theorem C8_upload_witness :
    uploadImageHandler "bkt" "https://pub" "ep" 17 sendOk none =
      ⟨400, .o [("message", .s "No image file provided")]⟩ ∧
    uploadImageHandler "" "https://pub" "ep" 17 sendOk (some file0) =
      ⟨500, .o [("message", .s "R2 bucket name not configured")]⟩ ∧
    uploadImageHandler "bkt" "https://pub" "ep" 17 sendOk (some file0) =
      ⟨200, .o [("url", .s ("https://pub" ++ "/" ++ uploadKey 17 file0))]⟩ :=
  ⟨(C8_upload "bkt" "https://pub" "ep" 17 sendOk file0 "" (by decide)).1 sendOk,
   (C8_upload "bkt" "https://pub" "ep" 17 sendOk file0 "" (by decide)).2.1 sendOk file0,
   (C8_upload "bkt" "https://pub" "ep" 17 sendOk file0 "" (by decide)).2.2.2.1 rfl⟩

/-- C5 counterexample: a login whose store lookup raises answers 500 with a
body whose fields are `message` AND `details` — not the single-field
`{message}` shape the claim asserts for every handler-level error. -/
theorem C5_counterexample :
    signinSchemaCheck emailOkAt loginGood = true ∧
    (loginHandler emailOkAt db0 (some "boom") loginGood).status = 500 ∧
    (loginHandler emailOkAt db0 (some "boom") loginGood).body.keys =
      ["message", "details"] ∧
    ¬ ["message", "details"] = ["message"] := by
  refine ⟨by decide, rfl, rfl, by decide⟩

/-- C5 (amended): every handler-level error response (status ≥ 400) of the
modelled endpoints carries a `message` field, but not always alone: the
login 500 branch adds `details`, and the image-upload storage-failure
branch adds `error` and `details`. -/
theorem C5_error_bodies
    (emailOk : String → Bool) (db : DB) (newId uid i : String)
    (sb : SignupBody) (dbe : Option String) (lb : SigninBody) (b : DemoBody)
    (bn pu ep : String) (now : Nat) (send : PutParams → Except String Unit)
    (file : Option UploadedFile) (verify : String → Option String)
    (hdr : Option String) (r : HttpResponse) :
    (400 ≤ (signupHandler emailOk db newId sb).1.status →
      (signupHandler emailOk db newId sb).1.body.hasMessageField = true) ∧
    (400 ≤ (loginHandler emailOk db dbe lb).status →
      (loginHandler emailOk db dbe lb).body.hasMessageField = true) ∧
    (400 ≤ (createDemoHandler db uid newId b).1.status →
      (createDemoHandler db uid newId b).1.body.hasMessageField = true) ∧
    (400 ≤ (getDemoByIdHandler db uid i).1.status →
      (getDemoByIdHandler db uid i).1.body.hasMessageField = true) ∧
    (400 ≤ (updateDemoHandler db uid i b).1.status →
      (updateDemoHandler db uid i b).1.body.hasMessageField = true) ∧
    (400 ≤ (deleteDemoHandler db uid i).1.status →
      (deleteDemoHandler db uid i).1.body.hasMessageField = true) ∧
    (400 ≤ (uploadImageHandler bn pu ep now send file).status →
      (uploadImageHandler bn pu ep now send file).body.hasMessageField = true) ∧
    (authenticateToken verify hdr = .error r →
      r.body.hasMessageField = true) := by
  refine ⟨?_, ?_, ?_, ?_, ?_, ?_, ?_, ?_⟩
  · simp only [signupHandler]
    repeat' split
    all_goals intro hs
    all_goals first | rfl | simp at hs
  · simp only [loginHandler]
    repeat' split
    all_goals intro hs
    all_goals first | rfl | simp at hs
  · simp only [createDemoHandler]
    repeat' split
    all_goals intro hs
    all_goals first | rfl | simp at hs
  · simp only [getDemoByIdHandler]
    repeat' split
    all_goals intro hs
    all_goals first | rfl | simp at hs
  · simp only [updateDemoHandler]
    repeat' split
    all_goals intro hs
    all_goals first | rfl | simp at hs
  · simp only [deleteDemoHandler]
    repeat' split
    all_goals intro hs
    all_goals first | rfl | simp at hs
  · simp only [uploadImageHandler]
    repeat' split
    all_goals intro hs
    all_goals first | rfl | simp at hs
  · intro her
    simp only [authenticateToken] at her
    repeat' split at her
    all_goals first
      | (injection her with hr; rw [← hr]; rfl)
      | simp at her

/-- Witness for the amended C5: the login 500 branch and the middleware 401
branch both carry a `message` field. -/
theorem C5_error_bodies_witness :
    (loginHandler emailOkAt db0 (some "boom") loginGood).body.hasMessageField = true ∧
    JVal.hasMessageField (.o [("message", .s "Authentication required")]) = true :=
  ⟨(C5_error_bodies emailOkAt db0 "n1" "u1" "d1" signupDupGood (some "boom")
      loginGood bodyFull "bkt" "pu" "ep" 17 sendOk none verifyAt none
      ⟨401, .o [("message", .s "Authentication required")]⟩).2.1 (by decide),
   (C5_error_bodies emailOkAt db0 "n1" "u1" "d1" signupDupGood (some "boom")
      loginGood bodyFull "bkt" "pu" "ep" 17 sendOk none verifyAt none
      ⟨401, .o [("message", .s "Authentication required")]⟩).2.2.2.2.2.2.2 rfl⟩
